import Mathlib

/-!
Verification of the interface call-definition compiler
(`frame/support/procedural/src/interface/parse/definition/call.rs`).

The Rust code is shallowly embedded: `syn` syntax values become plain
inductive types, `proc_macro2::Span` becomes `Nat`, fallible functions
return `Except SynError`.  Every definition follows the corresponding
source item; deviations forced by the embedding (opaque token details,
the `unreachable!` arms) are noted in comments.
-/

/-- Stand-in for `proc_macro2::Span`: an abstract source location used
only for diagnostics. -/
abbrev Span := Nat

/-- Stand-in for `syn::Expr` (the weight formula, carried verbatim and
never inspected by this pass): an opaque tag. -/
abbrev SynExpr := Nat

/-- Stand-in for `syn::Ident`: the identifier text together with its span. -/
structure Ident where
  name : String
  loc : Span
  deriving Repr, DecidableEq

/-- Shallow embedding of `syn::Type`, keeping exactly the structure the
source inspects.  `syn::Type::Path` carries an optional qualified-self
(`qself`) and a list of path segments; every segment is an identifier
together with its (angle-bracketed) generic type arguments.  The
`Option` on the qself is unfolded into the two constructors `path`
(no qself) and `qpath` (with qself; `pos` stands for `QSelf::position`,
the punctuation tokens carry no information).  Every non-path type
(references, tuples, arrays, ...) is collapsed into `other`, which the
source never inspects or rewrites. -/
inductive SynType where
  | path (segments : List (String × List SynType))
  | qpath (qself : SynType) (pos : Nat) (segments : List (String × List SynType))
  | other (tag : Nat)

/-- One step of the segment loop of `adapt_type_to_generic_if_self`:
`if segment.ident == "Self" { segment.ident = Ident::new("Runtime", ..) }`.
Only the segment identifier is touched; its generic arguments are kept. -/
def replaceSelfSegs (segs : List (String × List SynType)) : List (String × List SynType) :=
  segs.map fun s => if s.1 == "Self" then ("Runtime", s.2) else s

/-- `adapt_type_to_generic_if_self` (call.rs lines 325-349): a non-path
type is returned unchanged; for a path type the qself type (when
present) is rewritten recursively, and then every top-level segment
whose identifier is `Self` is renamed to `Runtime`.  The segment
arguments are not visited, exactly as in the source. -/
def adapt_type_to_generic_if_self : SynType → SynType
  | SynType.other t => SynType.other t
  | SynType.path segs => SynType.path (replaceSelfSegs segs)
  | SynType.qpath qty pos segs =>
      SynType.qpath (adapt_type_to_generic_if_self qty) pos (replaceSelfSegs segs)

mutual

/-- Whether a type contains a `Self` path segment anywhere (including
inside segment generic arguments).  This is the reading of
"self-reference" used by the specification. -/
def containsSelf : SynType → Bool
  | SynType.other _ => false
  | SynType.path segs => segsContainSelf segs
  | SynType.qpath qty _ segs => containsSelf qty || segsContainSelf segs

/-- Whether a segment list contains a `Self` segment, in its identifiers
or inside the generic arguments of any segment. -/
def segsContainSelf : List (String × List SynType) → Bool
  | [] => false
  | (i, args) :: rest => i == "Self" || argsContainSelf args || segsContainSelf rest

/-- Whether a list of generic type arguments contains a `Self` segment. -/
def argsContainSelf : List SynType → Bool
  | [] => false
  | t :: ts => containsSelf t || argsContainSelf ts

end

/-- Whether a `Self` segment occurs on the spine actually visited by
`adapt_type_to_generic_if_self`: the top-level segment identifiers and,
recursively, the qualified-self type. -/
def spineHasSelf : SynType → Bool
  | SynType.other _ => false
  | SynType.path segs => segs.any fun s => s.1 == "Self"
  | SynType.qpath qty _ segs => spineHasSelf qty || segs.any fun s => s.1 == "Self"

/-- `Self::Currency` as a concrete type. -/
def selfCurrencyTy : SynType := SynType.path [("Self", []), ("Currency", [])]

/-- `Vec<Self::Currency>`: a `Self` segment nested inside the generic
arguments of the `Vec` segment. -/
def vecSelfTy : SynType := SynType.path [("Vec", [selfCurrencyTy])]

/-- `SelectorType` (from the procedural crate's `interface` module, used by
call.rs lines 208-217): a selector requirement, either naming a selector
explicitly or using the default one, together with the expected return type. -/
inductive SelectorType where
  | Named (name : Ident) (return_ty : SynType)
  | Default (return_ty : SynType)

/-- `CallAttr` (call.rs lines 353-358): the parsed per-method interface
directives. -/
inductive CallAttr where
  | Index (idx : Nat)
  | Weight (w : SynExpr)
  | UseSelector (name : Ident)
  | NoSelector

/-- Embedding of `syn::Pat` as far as the source inspects it: an
identifier pattern or anything else. -/
inductive Pat where
  | ident (i : Ident)
  | otherPat (tag : Nat)

/-- Embedding of `syn::PatType` (a typed function argument).
`compactAttrs` is the number of `#[interface::compact]` markers drained
from the argument by `helper::take_item_interface_attrs` (the helper is
not under src/; per the spec it drains the recognized interface
annotations, here the compactness markers).  `span`, `patSpan` and
`tySpan` stand for `arg.span()`, `arg.pat.span()` and `arg.ty.span()`. -/
structure PatType where
  compactAttrs : Nat
  pat : Pat
  patSpan : Span
  ty : SynType
  tySpan : Span
  span : Span

/-- Embedding of `syn::FnArg`: a receiver (`self`) or a typed argument. -/
inductive FnArg where
  | Receiver
  | Typed (arg : PatType)

/-- Embedding of the parts of `syn::Signature` the source reads:
name, inputs, return type (`none` for `ReturnType::Default`) and span.
`outputTySpan` stands for the span of the return type tokens. -/
structure MethodSig where
  ident : Ident
  inputs : List FnArg
  output : Option SynType
  outputTySpan : Span
  span : Span

/-- Embedding of `syn::TraitItemMethod`.  `attrs` is the list of parsed
interface directives drained from the method by
`helper::take_item_interface_attrs` (modelled from the spec: the helper
is not under src/; it removes the recognized `#[interface::..]`
annotations and parses each into a `CallAttr`).  `residualAttrs` is the
attribute list left on the method after the drain (opaque here), and
`docs` the doc literals `get_doc_literals` extracts from it. -/
structure TraitItemMethod where
  attrs : List CallAttr
  residualAttrs : List Nat
  docs : List String
  sig : MethodSig

/-- Embedding of `syn::TraitItem`: a trait method or any other item. -/
inductive TraitItem where
  | Method (m : TraitItemMethod)
  | Other (tag : Nat)

/-- Embedding of `syn::Error`: a primary span and message plus the
errors attached via `Error::combine`. -/
structure SynError where
  span : Span
  msg : String
  combined : List (Span × String)

/-- `SingleCallDef` (call.rs lines 292-310). -/
structure SingleCallDef where
  selector : Option SelectorType
  name : Ident
  args : List (Bool × Ident × SynType)
  weight : SynExpr
  call_index : Nat
  docs : List String
  attrs : List Nat
  attr_span : Span

/-- `CallDef` (call.rs lines 33-36). -/
structure CallDef where
  interface_span : Span
  calls : List SingleCallDef

/-- `check_call_first_arg_type` (call.rs lines 399-419): re-parses the
type tokens expecting exactly `Self::RuntimeOrigin` (with `syn::parse2`
demanding that all tokens are consumed), so only the two-segment path
`Self::RuntimeOrigin` with no qself and no generic arguments passes. -/
def check_call_first_arg_type (tySpan : Span) (ty : SynType) : Except SynError Unit :=
  match ty with
  | SynType.path [("Self", []), ("RuntimeOrigin", [])] => Except.ok ()
  | _ => Except.error ⟨tySpan, "Invalid type: expected `Self::RuntimeOrigin`", []⟩

/-- `check_call_second_arg_type` (call.rs lines 422-442): re-parses the
type tokens expecting exactly `Select<$ty>` and yields the inner type,
so only a one-segment path `Select` with exactly one generic argument
passes. -/
def check_call_second_arg_type (tySpan : Span) (ty : SynType) : Except SynError SynType :=
  match ty with
  | SynType.path [("Select", [inner])] => Except.ok inner
  | _ => Except.error ⟨tySpan, "Invalid type: expected `Select<$ident>`", []⟩

/-- `check_call_return_type` (call.rs lines 445-460): the return type
must be exactly the `CallResult` keyword. -/
def check_call_return_type (tySpan : Span) (ty : SynType) : Except SynError Unit :=
  match ty with
  | SynType.path [("CallResult", [])] => Except.ok ()
  | _ => Except.error ⟨tySpan, "expected `CallResult`", []⟩

/-- The first-input check of `CallDef::try_from` (call.rs lines 63-76). -/
def checkFirstInput (sig : MethodSig) : Except SynError Unit :=
  match sig.inputs.head? with
  | none =>
    Except.error ⟨sig.span, "Invalid interface::call, must have at least origin arg", []⟩
  | some FnArg.Receiver =>
    Except.error ⟨sig.span,
      "Invalid interface::call, first argument must be a typed argument, e.g. `origin: Self::RuntimeOrigin`", []⟩
  | some (FnArg.Typed arg) => check_call_first_arg_type arg.tySpan arg.ty

/-- The return-type check of `CallDef::try_from` (call.rs lines 78-84). -/
def checkOutputType (sig : MethodSig) : Except SynError Unit :=
  match sig.output with
  | some ty => check_call_return_type sig.outputTySpan ty
  | none =>
    Except.error ⟨sig.span, "Invalid Interface::call, require return type InterfaceResult", []⟩

/-- The selector-gating diagnostic (call.rs lines 98-99 and 121-122,
identical text in both arms). -/
def selectorGatingMsg : String :=
  "Invalid interface::view, selector attributes given but top level mod misses `#[interface::with_selector] attribute.`"

/-- The conflicting-selector-directives diagnostic (call.rs lines 104-106
and 127-129, identical text in both arms). -/
def bothSelectorMsg : String :=
  "Invalid interface::view, both `#[interface::no_selector]` and `#[interface::use_selector($ident)]` used on the same method. Use either one or the other"

/-- The duplicated `no_selector` diagnostic (call.rs lines 111-113). -/
def multiNoSelectorMsg : String :=
  "Invalid interface::view, multiple `#[interface::no_selector]` attributes used on the same method. Only one is allowed."

/-- The duplicated `use_selector` diagnostic (call.rs lines 134-135). -/
def multiUseSelectorMsg : String :=
  "Invalid interface::view, multiple `#[interface::use_selector($ident)]` attributes used on the same method. Only one is allowed."

/-- Whether a directive is one of the two selector-mode directives. -/
def isSelectorMode : CallAttr → Bool
  | CallAttr.UseSelector _ => true
  | CallAttr.NoSelector => true
  | _ => false

/-- The closure folded by the `try_fold` over the drained directives
(call.rs lines 92-144): indices and weights are pushed onto their
lists; a selector-mode directive first checks the global flag, then
conflict with an already seen directive of the other kind, then
duplication, and otherwise is recorded. -/
def partitionStep (global_selector : Bool) (sigSpan : Span)
    (acc : List CallAttr × List CallAttr × Option CallAttr) (attr : CallAttr) :
    Except SynError (List CallAttr × List CallAttr × Option CallAttr) :=
  match acc with
  | (wAttrs, idxAttrs, selAttr) =>
    match attr with
    | CallAttr.Index i => Except.ok (wAttrs, idxAttrs ++ [CallAttr.Index i], selAttr)
    | CallAttr.Weight w => Except.ok (wAttrs ++ [CallAttr.Weight w], idxAttrs, selAttr)
    | CallAttr.NoSelector =>
      if !global_selector then Except.error ⟨sigSpan, selectorGatingMsg, []⟩
      else
        match selAttr with
        | some (CallAttr.UseSelector _) => Except.error ⟨sigSpan, bothSelectorMsg, []⟩
        | some _ => Except.error ⟨sigSpan, multiNoSelectorMsg, []⟩
        | none => Except.ok (wAttrs, idxAttrs, some CallAttr.NoSelector)
    | CallAttr.UseSelector n =>
      if !global_selector then Except.error ⟨sigSpan, selectorGatingMsg, []⟩
      else
        match selAttr with
        | some CallAttr.NoSelector => Except.error ⟨sigSpan, bothSelectorMsg, []⟩
        | some _ => Except.error ⟨sigSpan, multiUseSelectorMsg, []⟩
        | none => Except.ok (wAttrs, idxAttrs, some (CallAttr.UseSelector n))

/-- The `try_fold` over the drained directives (call.rs lines 86-145),
folding `partitionStep` over the directive list and short-circuiting at
the first error. -/
def partitionAttrs (global_selector : Bool) (sigSpan : Span) :
    List CallAttr → List CallAttr × List CallAttr × Option CallAttr →
    Except SynError (List CallAttr × List CallAttr × Option CallAttr)
  | [], acc => Except.ok acc
  | attr :: rest, acc =>
    match partitionStep global_selector sigSpan acc attr with
    | Except.error e => Except.error e
    | Except.ok acc2 => partitionAttrs global_selector sigSpan rest acc2

/-- The missing-weight diagnostic (call.rs line 149). -/
def missingWeightMsg : String :=
  "Invalid interface::call, requires weight attribute i.e. `#[interface::weight($expr)]`"

/-- The too-many-weights diagnostic (call.rs line 151). -/
def tooManyWeightMsg : String :=
  "Invalid interface::call, too many weight attributes given"

/-- The missing-call-index diagnostic (call.rs line 162). -/
def missingIndexMsg : String :=
  "Invalid interface::call, requires call_index attribute i.e. `#[interface::call_index(u8)]`"

/-- The too-many-call-indices diagnostic (call.rs line 164). -/
def tooManyIndexMsg : String :=
  "Invalid interface::call, too many call_index attributes given"

/-- The weight cardinality check and extraction (call.rs lines 147-158):
exactly one weight directive is required; the `_ => unreachable!` arm of
the source extraction (the weight list only ever holds `Weight`
directives) is rendered as a default value. -/
def getWeight (sigSpan : Span) : List CallAttr → Except SynError SynExpr
  | [] => Except.error ⟨sigSpan, missingWeightMsg, []⟩
  | [CallAttr.Weight w] => Except.ok w
  | [_] => Except.ok 0
  | _ => Except.error ⟨sigSpan, tooManyWeightMsg, []⟩

/-- The call-index cardinality check and extraction (call.rs lines
160-171), with the same policy as `getWeight`. -/
def getCallIndex (sigSpan : Span) : List CallAttr → Except SynError Nat
  | [] => Except.error ⟨sigSpan, missingIndexMsg, []⟩
  | [CallAttr.Index i] => Except.ok i
  | [_] => Except.ok 0
  | _ => Except.error ⟨sigSpan, tooManyIndexMsg, []⟩

/-- The duplicate-call-index message (call.rs lines 173-176). -/
def conflictMsg (usedFn current : String) (idx : Nat) : String :=
  "Call indices are conflicting: Both functions " ++ usedFn ++ " and " ++ current ++
    " are at index " ++ toString idx

/-- The duplicate-call-index error (call.rs lines 172-180): primary at
the previously registered function name, combined with an error at the
current method name, both carrying the same message. -/
def conflictError (usedFn current : Ident) (idx : Nat) : SynError :=
  ⟨usedFn.loc, conflictMsg usedFn.name current.name idx,
    [(current.loc, conflictMsg usedFn.name current.name idx)]⟩

/-- The selector-requirement resolution (call.rs lines 182-189): an
explicit `UseSelector` forces `true`, an explicit `NoSelector` forces
`false`, otherwise the global flag decides.  The `_ => unreachable!`
arm (the partition never records an `Index`/`Weight` here) is rendered
as `false`. -/
def resolveWithSelector (selAttr : Option CallAttr) (global_selector : Bool) : Bool :=
  match selAttr with
  | some (CallAttr.UseSelector _) => true
  | some CallAttr.NoSelector => false
  | some _ => false
  | none => global_selector

/-- The missing-second-argument diagnostic (call.rs lines 193-195). -/
def needSelectMsg : String :=
  "Invalid interface::call, must have `Select<$ty>` as first argument if used with a selector and not annotated with #[interface::no_selector]."

/-- The second-argument-must-be-typed diagnostic (call.rs lines 199-200). -/
def secondTypedMsg : String :=
  "Invalid interface::call, second argument must be a typed argument, e.g. `select: Select<$ty>`"

/-- Construction of the selector requirement (call.rs lines 206-217):
`Named` when a `UseSelector` directive supplied a name, `Default`
otherwise (the `NoSelector` and `Index`/`Weight` arms are
`unreachable!` in the source and collapse into the default case). -/
def selectorTyOf (selAttr : Option CallAttr) (first_arg_ty : SynType) : SelectorType :=
  match selAttr with
  | some (CallAttr.UseSelector name) => SelectorType.Named name first_arg_ty
  | _ => SelectorType.Default first_arg_ty

/-- The selector block of `CallDef::try_from` (call.rs lines 190-222):
when a selector is required the second input must exist, be typed and
have shape `Select<$ty>`; the inner type becomes the requirement's
return type and two leading arguments are skipped, otherwise one. -/
def selectorAndSkip (sig : MethodSig) (selAttr : Option CallAttr)
    (with_selector : Bool) : Except SynError (Nat × Option SelectorType) :=
  if with_selector then
    match sig.inputs[1]? with
    | none => Except.error ⟨sig.span, needSelectMsg, []⟩
    | some FnArg.Receiver => Except.error ⟨sig.span, secondTypedMsg, []⟩
    | some (FnArg.Typed arg) =>
      match check_call_second_arg_type arg.tySpan arg.ty with
      | Except.error e => Except.error e
      | Except.ok first_arg_ty => Except.ok (2, some (selectorTyOf selAttr first_arg_ty))
  else Except.ok (1, none)

/-- The argument-extraction loop (call.rs lines 226-252): for every
remaining input, at most one compactness marker is allowed, the pattern
must be a plain identifier, and the type is rewritten through
`adapt_type_to_generic_if_self`.  A receiver past the skip count is
`unreachable!` in the source (syn only parses a receiver in first
position); it is rendered as an error. -/
def extractArgs : List FnArg → Except SynError (List (Bool × Ident × SynType))
  | [] => Except.ok []
  | FnArg.Receiver :: _ =>
    Except.error ⟨0, "unreachable: Only first argument can be receiver", []⟩
  | FnArg.Typed arg :: rest =>
    if arg.compactAttrs > 1 then
      Except.error ⟨arg.span, "Invalid interface::call, argument has too many attributes", []⟩
    else
      match arg.pat with
      | Pat.otherPat _ =>
        Except.error ⟨arg.patSpan, "Invalid interface::call, argument must be ident", []⟩
      | Pat.ident pid =>
        match extractArgs rest with
        | Except.error e => Except.error e
        | Except.ok tail =>
          Except.ok ((arg.compactAttrs != 0, pid, adapt_type_to_generic_if_self arg.ty) :: tail)

/-- `CallDef::try_from` (call.rs lines 39-268): the fold step that
compiles one trait item into the accumulated call table.  The `indices`
hash map of the source (built from the existing entries, whose indices
are pairwise distinct by the source's own assert) is rendered as a
direct `find?` over the existing entries. -/
def CallDef.try_from (interface_span : Span) (calls? : Option CallDef)
    (global_selector : Bool) (attr_span : Span) (item : TraitItem) :
    Except SynError CallDef :=
  match item with
  | TraitItem.Other _ =>
    Except.error ⟨attr_span, "Invalid interface::call, expected item trait method", []⟩
  | TraitItem.Method method =>
    match checkFirstInput method.sig with
    | Except.error e => Except.error e
    | Except.ok _ =>
    match checkOutputType method.sig with
    | Except.error e => Except.error e
    | Except.ok _ =>
    match partitionAttrs global_selector method.sig.span method.attrs ([], [], none) with
    | Except.error e => Except.error e
    | Except.ok (wAttrs, idxAttrs, selAttr) =>
    match getWeight method.sig.span wAttrs with
    | Except.error e => Except.error e
    | Except.ok weight =>
    match getCallIndex method.sig.span idxAttrs with
    | Except.error e => Except.error e
    | Except.ok call_index =>
    match (calls?.getD ⟨interface_span, []⟩).calls.find?
        (fun c => c.call_index == call_index) with
    | some used_fn => Except.error (conflictError used_fn.name method.sig.ident call_index)
    | none =>
    match selectorAndSkip method.sig selAttr (resolveWithSelector selAttr global_selector) with
    | Except.error e => Except.error e
    | Except.ok (skip, selOpt) =>
    match extractArgs (method.sig.inputs.drop skip) with
    | Except.error e => Except.error e
    | Except.ok args =>
      Except.ok
        { interface_span := (calls?.getD ⟨interface_span, []⟩).interface_span,
          calls := (calls?.getD ⟨interface_span, []⟩).calls ++
            [{ selector := selOpt, name := method.sig.ident, args := args,
               weight := weight, call_index := call_index, docs := method.docs,
               attrs := method.residualAttrs, attr_span := attr_span }] }

/-- A readable rendering of a selector requirement, standing in for the
Rust `Debug` formatting used by the missing-selector diagnostic. -/
def selectorKindStr : SelectorType → String
  | SelectorType.Named n _ => "Named " ++ n.name
  | SelectorType.Default _ => "Default"

/-- The missing-selector-table diagnostic (call.rs lines 276-281). -/
def missingSelectorMsg (s : SelectorType) : String :=
  "Invalid interface::definition, expected a selector of kind `" ++ selectorKindStr s ++
    "`, found none. (try adding a correctly annotated selector method to the trait)."

/-- Modelled from the spec: `SelectorDef`, the output of the sibling
selector compilation pass, is not under src/.  Per the spec the selector
table maps each selector name to its declared expected return type, with
at most one selector marked as the default. -/
structure SelectorDef where
  selectors : List (String × SynType)
  defaultReturnTy : Option SynType

mutual

/-- Boolean equality on the embedded types (no `DecidableEq` is derived
for the nested inductive; this mirrors comparing the parsed types for
syntactic equality). -/
def SynType.beqTy : SynType → SynType → Bool
  | SynType.path s1, SynType.path s2 => SynType.beqSegs s1 s2
  | SynType.qpath q1 p1 s1, SynType.qpath q2 p2 s2 =>
    SynType.beqTy q1 q2 && p1 == p2 && SynType.beqSegs s1 s2
  | SynType.other t1, SynType.other t2 => t1 == t2
  | _, _ => false

/-- Boolean equality on segment lists. -/
def SynType.beqSegs : List (String × List SynType) →
    List (String × List SynType) → Bool
  | [], [] => true
  | (i1, a1) :: r1, (i2, a2) :: r2 =>
    i1 == i2 && SynType.beqArgs a1 a2 && SynType.beqSegs r1 r2
  | _, _ => false

/-- Boolean equality on generic-argument lists. -/
def SynType.beqArgs : List SynType → List SynType → Bool
  | [], [] => true
  | t1 :: r1, t2 :: r2 => SynType.beqTy t1 t2 && SynType.beqArgs r1 r2
  | _, _ => false

end

/-- Modelled from the spec: `SelectorDef::check_selector` is not under
src/.  Per the spec it looks the requirement's selector up by name (or
takes the default selector for a `Default` requirement) and fails if it
is absent or if the declared return type is incompatible with the
requirement's expected return type. -/
def SelectorDef.check_selector (d : SelectorDef) (s : SelectorType) :
    Except SynError Unit :=
  match s with
  | SelectorType.Named name ty =>
    match d.selectors.lookup name.name with
    | none => Except.error ⟨name.loc, "selector " ++ name.name ++ " not found", []⟩
    | some declared =>
      if SynType.beqTy declared ty then Except.ok ()
      else Except.error ⟨name.loc, "selector " ++ name.name ++ " has incompatible return type", []⟩
  | SelectorType.Default ty =>
    match d.defaultReturnTy with
    | none => Except.error ⟨0, "no default selector declared", []⟩
    | some declared =>
      if SynType.beqTy declared ty then Except.ok ()
      else Except.error ⟨0, "default selector has incompatible return type", []⟩

/-- The loop body of `CallDef::check_selectors` (call.rs lines 270-288):
entries without a selector requirement are skipped; with a requirement
and no selector table the missing-selector error is raised at the
entry's span; otherwise the requirement is checked against the table. -/
def checkSelectorsList : List SingleCallDef → Option SelectorDef → Except SynError Unit
  | [], _ => Except.ok ()
  | call :: rest, selectors =>
    match call.selector with
    | none => checkSelectorsList rest selectors
    | some s =>
      match selectors with
      | some d =>
        match d.check_selector s with
        | Except.error e => Except.error e
        | Except.ok _ => checkSelectorsList rest selectors
      | none => Except.error ⟨call.attr_span, missingSelectorMsg s, []⟩

/-- `CallDef::check_selectors` (call.rs lines 270-288). -/
def CallDef.check_selectors (self : CallDef) (selectors : Option SelectorDef) :
    Except SynError Unit :=
  checkSelectorsList self.calls selectors

/-- The table invariant: call indices are pairwise distinct. -/
def IndicesDistinct (c : CallDef) : Prop :=
  c.calls.Pairwise fun a b => a.call_index ≠ b.call_index

/-- `Self::RuntimeOrigin`, the required first-parameter type. -/
def originTy : SynType := SynType.path [("Self", []), ("RuntimeOrigin", [])]

/-- `CallResult`, the required return-type marker. -/
def callResultTy : SynType := SynType.path [("CallResult", [])]

/-- `u32`, a sample selector return type. -/
def u32Ty : SynType := SynType.path [("u32", [])]

/-- A well-formed `origin: Self::RuntimeOrigin` argument. -/
def originArg : FnArg := FnArg.Typed ⟨0, Pat.ident ⟨"origin", 1⟩, 2, originTy, 3, 4⟩

/-- A well-formed `select: Select<u32>` argument. -/
def selectArg : FnArg :=
  FnArg.Typed ⟨0, Pat.ident ⟨"select", 5⟩, 6, SynType.path [("Select", [u32Ty])], 7, 8⟩

/-- A sample trailing argument `amount: Self::Currency`. -/
def amountArg : FnArg :=
  FnArg.Typed ⟨0, Pat.ident ⟨"amount", 9⟩, 10, selfCurrencyTy, 11, 12⟩

/-- A sample method declaration with the given name, directives and
inputs, returning `CallResult`. -/
def mkMethod (name : String) (nameLoc : Span) (attrs : List CallAttr)
    (inputs : List FnArg) : TraitItemMethod :=
  { attrs := attrs, residualAttrs := [], docs := [],
    sig := { ident := ⟨name, nameLoc⟩, inputs := inputs, output := some callResultTy,
             outputTySpan := 20, span := 21 } }

/-- A sample weight directive. -/
def wAttr : CallAttr := CallAttr.Weight 7

/-- A one-entry table holding a method named `transfer` at the given
call index. -/
def sampleTable (i : Nat) : CallDef :=
  { interface_span := 40,
    calls := [{ selector := none, name := ⟨"transfer", 30⟩, args := [], weight := 7,
                call_index := i, docs := [], attrs := [], attr_span := 31 }] }

/-- The empty call table. -/
def emptyTable : CallDef := { interface_span := 40, calls := [] }

theorem replaceSelfSegs_of_noSelf :
    (segs : List (String × List SynType)) →
    (∀ s ∈ segs, (s.1 == "Self") = false) → replaceSelfSegs segs = segs
  | [], _ => rfl
  | s :: rest, h => by
    have hs : (s.1 == "Self") = false := h s (by simp)
    have hr := replaceSelfSegs_of_noSelf rest (fun x hx => h x (by simp [hx]))
    simp only [replaceSelfSegs, List.map_cons] at hr ⊢
    rw [if_neg (by simp [hs]), hr]

theorem segsContainSelf_false_no_self {segs : List (String × List SynType)}
    (h : segsContainSelf segs = false) : ∀ s ∈ segs, (s.1 == "Self") = false := by
  induction segs with
  | nil => intro s hs; cases hs
  | cons hd tl ih =>
    intro s hs
    rw [segsContainSelf] at h
    simp only [Bool.or_eq_false_iff] at h
    cases hs with
    | head => exact h.1.1
    | tail _ hmem => exact ih h.2 s hmem

theorem adapt_of_not_containsSelf :
    (ty : SynType) → containsSelf ty = false → adapt_type_to_generic_if_self ty = ty
  | SynType.other _, _ => rfl
  | SynType.path segs, h => by
    rw [containsSelf] at h
    rw [adapt_type_to_generic_if_self,
      replaceSelfSegs_of_noSelf segs (segsContainSelf_false_no_self h)]
  | SynType.qpath qty pos segs, h => by
    rw [containsSelf, Bool.or_eq_false_iff] at h
    rw [adapt_type_to_generic_if_self, adapt_of_not_containsSelf qty h.1,
      replaceSelfSegs_of_noSelf segs (segsContainSelf_false_no_self h.2)]

theorem replaceSelfSegs_elem (a : String × List SynType) :
    ((if a.1 == "Self" then ("Runtime", a.2) else a).1 == "Self") = false := by
  cases h : a.1 == "Self" with
  | true => simp
  | false => simpa using h

theorem replaceSelfSegs_no_self_left (segs : List (String × List SynType)) :
    ∀ s ∈ replaceSelfSegs segs, (s.1 == "Self") = false := by
  intro s hs
  rw [replaceSelfSegs, List.mem_map] at hs
  obtain ⟨a, _, ha⟩ := hs
  rw [← ha]
  exact replaceSelfSegs_elem a

theorem replaceSelfSegs_idem (segs : List (String × List SynType)) :
    replaceSelfSegs (replaceSelfSegs segs) = replaceSelfSegs segs :=
  replaceSelfSegs_of_noSelf _ (replaceSelfSegs_no_self_left segs)

theorem adapt_idem :
    (ty : SynType) →
    adapt_type_to_generic_if_self (adapt_type_to_generic_if_self ty) =
      adapt_type_to_generic_if_self ty
  | SynType.other _ => rfl
  | SynType.path segs => by
    rw [adapt_type_to_generic_if_self, adapt_type_to_generic_if_self,
      replaceSelfSegs_idem]
  | SynType.qpath qty pos segs => by
    rw [adapt_type_to_generic_if_self, adapt_type_to_generic_if_self,
      adapt_idem qty, replaceSelfSegs_idem]

theorem spineHasSelf_adapt :
    (ty : SynType) → spineHasSelf (adapt_type_to_generic_if_self ty) = false
  | SynType.other _ => rfl
  | SynType.path segs => by
    rw [adapt_type_to_generic_if_self, spineHasSelf]
    simp only [List.any_eq_false, Bool.not_eq_true]
    exact replaceSelfSegs_no_self_left segs
  | SynType.qpath qty pos segs => by
    rw [adapt_type_to_generic_if_self, spineHasSelf, Bool.or_eq_false_iff]
    refine ⟨spineHasSelf_adapt qty, ?_⟩
    simp only [List.any_eq_false, Bool.not_eq_true]
    exact replaceSelfSegs_no_self_left segs

theorem partitionAttrs_append_ok (g : Bool) (sp : Span) :
    (xs : List CallAttr) → (ys : List CallAttr) →
    (acc acc2 : List CallAttr × List CallAttr × Option CallAttr) →
    partitionAttrs g sp xs acc = Except.ok acc2 →
    partitionAttrs g sp (xs ++ ys) acc = partitionAttrs g sp ys acc2
  | [], ys, acc, acc2, h => by
    injection h with h
    subst h
    rfl
  | x :: rest, ys, acc, acc2, h => by
    cases hstep : partitionStep g sp acc x with
    | error e =>
      simp only [partitionAttrs, hstep] at h
      exact Except.noConfusion h
    | ok acc1 =>
      simp only [partitionAttrs, hstep] at h
      simp only [List.cons_append, partitionAttrs, hstep]
      exact partitionAttrs_append_ok g sp rest ys acc1 acc2 h

theorem partitionStep_not_mode (g : Bool) (sp : Span)
    (acc : List CallAttr × List CallAttr × Option CallAttr) (attr : CallAttr)
    (h : isSelectorMode attr = false) :
    ∃ w i, partitionStep g sp acc attr = Except.ok (w, i, acc.2.2) := by
  cases attr with
  | Index n => exact ⟨acc.1, acc.2.1 ++ [CallAttr.Index n], rfl⟩
  | Weight wt => exact ⟨acc.1 ++ [CallAttr.Weight wt], acc.2.1, rfl⟩
  | UseSelector n => simp [isSelectorMode] at h
  | NoSelector => simp [isSelectorMode] at h

theorem partitionAttrs_noMode (g : Bool) (sp : Span) :
    (xs : List CallAttr) →
    (acc : List CallAttr × List CallAttr × Option CallAttr) →
    (∀ a ∈ xs, isSelectorMode a = false) →
    ∃ w i, partitionAttrs g sp xs acc = Except.ok (w, i, acc.2.2)
  | [], acc, _ => ⟨acc.1, acc.2.1, rfl⟩
  | attr :: rest, acc, h => by
    obtain ⟨w1, i1, hstep⟩ :=
      partitionStep_not_mode g sp acc attr (h attr (by simp))
    obtain ⟨w2, i2, hrest⟩ :=
      partitionAttrs_noMode g sp rest (w1, i1, acc.2.2) (fun a ha => h a (by simp [ha]))
    exact ⟨w2, i2, by rw [partitionAttrs, hstep]; exact hrest⟩

theorem partitionStep_gating (sp : Span)
    (acc : List CallAttr × List CallAttr × Option CallAttr) (attr : CallAttr)
    (h : isSelectorMode attr = true) :
    partitionStep false sp acc attr = Except.error ⟨sp, selectorGatingMsg, []⟩ := by
  cases attr with
  | Index n => simp [isSelectorMode] at h
  | Weight wt => simp [isSelectorMode] at h
  | UseSelector n => rfl
  | NoSelector => rfl

theorem partitionAttrs_gating (sp : Span) :
    (xs : List CallAttr) →
    (acc : List CallAttr × List CallAttr × Option CallAttr) →
    (∃ a ∈ xs, isSelectorMode a = true) →
    partitionAttrs false sp xs acc = Except.error ⟨sp, selectorGatingMsg, []⟩
  | [], _, h => by simp at h
  | attr :: rest, acc, h => by
    by_cases hm : isSelectorMode attr = true
    · rw [partitionAttrs, partitionStep_gating sp acc attr hm]
    · have hm' : isSelectorMode attr = false := by
        cases hval : isSelectorMode attr
        · rfl
        · exact absurd hval hm
      obtain ⟨w1, i1, hstep⟩ := partitionStep_not_mode false sp acc attr hm'
      have hrest : ∃ a ∈ rest, isSelectorMode a = true := by
        obtain ⟨a, ha, hma⟩ := h
        cases List.mem_cons.mp ha with
        | inl haeq => exact absurd (haeq ▸ hma) (by simp [hm'])
        | inr hmem => exact ⟨a, hmem, hma⟩
      rw [partitionAttrs, hstep]
      exact partitionAttrs_gating sp rest _ hrest

theorem selectorAndSkip_false (sig : MethodSig) (selAttr : Option CallAttr) :
    selectorAndSkip sig selAttr false = Except.ok (1, none) := rfl

theorem selectorAndSkip_true_isSome (sig : MethodSig) (selAttr : Option CallAttr)
    (sk : Nat) (so : Option SelectorType)
    (h : selectorAndSkip sig selAttr true = Except.ok (sk, so)) :
    sk = 2 ∧ so.isSome = true := by
  rw [selectorAndSkip] at h
  simp only [if_pos] at h
  split at h
  · exact Except.noConfusion h
  · exact Except.noConfusion h
  · split at h
    · exact Except.noConfusion h
    · injection h with h2
      injection h2 with hsk hso
      exact ⟨hsk.symm, by rw [← hso]; rfl⟩

theorem tryFrom_ok_inv (ispan : Span) (calls? : Option CallDef) (g : Bool)
    (aspan : Span) (item : TraitItem) (c' : CallDef)
    (h : CallDef.try_from ispan calls? g aspan item = Except.ok c') :
    ∃ m wAttrs idxAttrs selAttr weight idx skipN selOpt args,
      item = TraitItem.Method m ∧
      checkFirstInput m.sig = Except.ok () ∧
      checkOutputType m.sig = Except.ok () ∧
      partitionAttrs g m.sig.span m.attrs ([], [], none) =
        Except.ok (wAttrs, idxAttrs, selAttr) ∧
      getWeight m.sig.span wAttrs = Except.ok weight ∧
      getCallIndex m.sig.span idxAttrs = Except.ok idx ∧
      (calls?.getD ⟨ispan, []⟩).calls.find? (fun c => c.call_index == idx) = none ∧
      selectorAndSkip m.sig selAttr (resolveWithSelector selAttr g) =
        Except.ok (skipN, selOpt) ∧
      extractArgs (m.sig.inputs.drop skipN) = Except.ok args ∧
      c' = { interface_span := (calls?.getD ⟨ispan, []⟩).interface_span,
             calls := (calls?.getD ⟨ispan, []⟩).calls ++
               [{ selector := selOpt, name := m.sig.ident, args := args,
                  weight := weight, call_index := idx, docs := m.docs,
                  attrs := m.residualAttrs, attr_span := aspan }] } := by
  cases item with
  | Other t => exact Except.noConfusion h
  | Method m =>
    rw [CallDef.try_from] at h
    split at h
    · exact Except.noConfusion h
    rename_i hFirst
    split at h
    · exact Except.noConfusion h
    rename_i hOut
    split at h
    · exact Except.noConfusion h
    rename_i wAttrs idxAttrs selAttr hPart
    split at h
    · exact Except.noConfusion h
    rename_i weight hW
    split at h
    · exact Except.noConfusion h
    rename_i idx hI
    split at h
    · exact Except.noConfusion h
    rename_i hFind
    split at h
    · exact Except.noConfusion h
    rename_i skipN selOpt hSel
    split at h
    · exact Except.noConfusion h
    rename_i args hArgs
    injection h with h2
    exact ⟨m, wAttrs, idxAttrs, selAttr, weight, idx, skipN, selOpt, args,
      rfl, hFirst, hOut, hPart, hW, hI, hFind, hSel, hArgs, h2.symm⟩

/-- Claim C2 counterexample: the rewrite does not replace every
occurrence of the enclosing-type self-reference.  On the concrete
argument type `Vec<Self::Currency>` the `Self` path segment sits inside
the generic arguments of the `Vec` segment; the source loop only renames
top-level segment identifiers (recursing only into qualified-path qself
types), so the type is returned unchanged and still contains a `Self`
segment after rewriting. -/
theorem adapt_type_counterexample :
    adapt_type_to_generic_if_self vecSelfTy = vecSelfTy ∧
    containsSelf (adapt_type_to_generic_if_self vecSelfTy) = true :=
  ⟨rfl, rfl⟩

/-- Claim C2 (amended): the rewrite returns a type containing no
self-reference unchanged; it replaces every `Self` segment on the
visited spine - the top-level path segments and, recursively, the
qualified-path qself type - leaving position data and all other
structure unchanged (`Self` segments nested inside a segment's generic
arguments or inside non-path types are not rewritten); and it is
idempotent. -/
theorem adapt_type_spec :
    (∀ ty, containsSelf ty = false → adapt_type_to_generic_if_self ty = ty) ∧
    (∀ ty, spineHasSelf (adapt_type_to_generic_if_self ty) = false) ∧
    (∀ qty pos segs,
      adapt_type_to_generic_if_self (SynType.qpath qty pos segs) =
        SynType.qpath (adapt_type_to_generic_if_self qty) pos (replaceSelfSegs segs)) ∧
    (∀ ty,
      adapt_type_to_generic_if_self (adapt_type_to_generic_if_self ty) =
        adapt_type_to_generic_if_self ty) :=
  ⟨adapt_of_not_containsSelf, spineHasSelf_adapt, fun _ _ _ => rfl, adapt_idem⟩

/-- Witness for the amended C2 theorem at concrete types. -/
theorem adapt_type_spec_witness :
    adapt_type_to_generic_if_self u32Ty = u32Ty ∧
    adapt_type_to_generic_if_self (adapt_type_to_generic_if_self selfCurrencyTy) =
      adapt_type_to_generic_if_self selfCurrencyTy :=
  ⟨adapt_type_spec.1 u32Ty rfl, adapt_type_spec.2.2.2 selfCurrencyTy⟩

theorem check_first_arg_ne (sp : Span) (ty : SynType)
    (hne : ty ≠ SynType.path [("Self", []), ("RuntimeOrigin", [])]) :
    check_call_first_arg_type sp ty =
      Except.error ⟨sp, "Invalid type: expected `Self::RuntimeOrigin`", []⟩ := by
  rw [check_call_first_arg_type]
  exact fun hc => hne hc

theorem check_return_ne (sp : Span) (ty : SynType)
    (hne : ty ≠ SynType.path [("CallResult", [])]) :
    check_call_return_type sp ty = Except.error ⟨sp, "expected `CallResult`", []⟩ := by
  rw [check_call_return_type]
  exact fun hc => hne hc

theorem check_second_arg_ne (sp : Span) (ty : SynType)
    (hne : ∀ T, ty ≠ SynType.path [("Select", [T])]) :
    check_call_second_arg_type sp ty =
      Except.error ⟨sp, "Invalid type: expected `Select<$ident>`", []⟩ := by
  rw [check_call_second_arg_type]
  exact fun T hc => hne T hc

/-- Claim C9: `CallDef::try_from` rejects a declaration with no
parameters, and one whose first parameter is an implicit receiver, each
with a structural error at the declaration's location; a typed first
parameter must be syntactically exactly `Self::RuntimeOrigin`, any
other shape failing with the expected-`Self::RuntimeOrigin`
diagnostic. -/
theorem tryFrom_first_param_check :
    (∀ sp ty, check_call_first_arg_type sp ty = Except.ok () ↔
      ty = SynType.path [("Self", []), ("RuntimeOrigin", [])]) ∧
    (∀ sp ty, ty ≠ SynType.path [("Self", []), ("RuntimeOrigin", [])] →
      check_call_first_arg_type sp ty =
        Except.error ⟨sp, "Invalid type: expected `Self::RuntimeOrigin`", []⟩) ∧
    (∀ ispan calls? g aspan m, m.sig.inputs = [] →
      CallDef.try_from ispan calls? g aspan (TraitItem.Method m) =
        Except.error ⟨m.sig.span, "Invalid interface::call, must have at least origin arg", []⟩) ∧
    (∀ ispan calls? g aspan m rest, m.sig.inputs = FnArg.Receiver :: rest →
      CallDef.try_from ispan calls? g aspan (TraitItem.Method m) =
        Except.error ⟨m.sig.span,
          "Invalid interface::call, first argument must be a typed argument, e.g. `origin: Self::RuntimeOrigin`", []⟩) ∧
    (∀ ispan calls? g aspan m arg rest e, m.sig.inputs = FnArg.Typed arg :: rest →
      check_call_first_arg_type arg.tySpan arg.ty = Except.error e →
      CallDef.try_from ispan calls? g aspan (TraitItem.Method m) = Except.error e) := by
  refine ⟨?_, ?_, ?_, ?_, ?_⟩
  · intro sp ty
    constructor
    · intro h
      by_contra hne
      rw [check_first_arg_ne sp ty hne] at h
      exact Except.noConfusion h
    · intro h
      subst h
      rfl
  · exact check_first_arg_ne
  · intro ispan calls? g aspan m h
    rw [CallDef.try_from, checkFirstInput, h]
    rfl
  · intro ispan calls? g aspan m rest h
    rw [CallDef.try_from, checkFirstInput, h]
    rfl
  · intro ispan calls? g aspan m arg rest e h h2
    rw [CallDef.try_from, checkFirstInput, h]
    simp only [List.head?_cons, h2]

/-- Witness for C9 at a concrete parameterless declaration. -/
theorem tryFrom_first_param_check_witness :
    CallDef.try_from 40 none true 41 (TraitItem.Method (mkMethod "foo" 50 [] [])) =
      Except.error ⟨(mkMethod "foo" 50 [] []).sig.span,
        "Invalid interface::call, must have at least origin arg", []⟩ :=
  tryFrom_first_param_check.2.2.1 40 none true 41 (mkMethod "foo" 50 [] []) rfl

/-- Claim C8: `CallDef::try_from` requires the declared return type to
be exactly the `CallResult` marker: a signature with no return type is
rejected with the missing-return-type diagnostic, and a return type
failing the marker check propagates that failure. -/
theorem tryFrom_return_type_check :
    (∀ sp ty, check_call_return_type sp ty = Except.ok () ↔ ty = callResultTy) ∧
    (∀ ispan calls? g aspan m,
      checkFirstInput m.sig = Except.ok () →
      m.sig.output = none →
      CallDef.try_from ispan calls? g aspan (TraitItem.Method m) =
        Except.error ⟨m.sig.span, "Invalid Interface::call, require return type InterfaceResult", []⟩) ∧
    (∀ ispan calls? g aspan m ty e,
      checkFirstInput m.sig = Except.ok () →
      m.sig.output = some ty →
      check_call_return_type m.sig.outputTySpan ty = Except.error e →
      CallDef.try_from ispan calls? g aspan (TraitItem.Method m) = Except.error e) := by
  refine ⟨?_, ?_, ?_⟩
  · intro sp ty
    constructor
    · intro h
      by_contra hne
      rw [check_return_ne sp ty hne] at h
      exact Except.noConfusion h
    · intro h
      subst h
      rfl
  · intro ispan calls? g aspan m h1 h2
    have hOut : checkOutputType m.sig =
        Except.error ⟨m.sig.span,
          "Invalid Interface::call, require return type InterfaceResult", []⟩ := by
      rw [checkOutputType, h2]
    rw [CallDef.try_from, h1, hOut]
  · intro ispan calls? g aspan m ty e h1 h2 h3
    have hOut : checkOutputType m.sig = Except.error e := by
      rw [checkOutputType, h2]
      exact h3
    rw [CallDef.try_from, h1, hOut]

/-- Witness for C8 at a concrete declaration with no return type. -/
theorem tryFrom_return_type_check_witness :
    CallDef.try_from 40 none true 41
        (TraitItem.Method
          { attrs := [], residualAttrs := [], docs := [],
            sig := { ident := ⟨"foo", 50⟩, inputs := [originArg], output := none,
                     outputTySpan := 20, span := 21 } }) =
      Except.error ⟨21, "Invalid Interface::call, require return type InterfaceResult", []⟩ :=
  tryFrom_return_type_check.2.1 40 none true 41
    { attrs := [], residualAttrs := [], docs := [],
      sig := { ident := ⟨"foo", 50⟩, inputs := [originArg], output := none,
               outputTySpan := 20, span := 21 } } rfl rfl

/-- Claim C4: `CallDef::try_from` requires exactly one weight directive
and exactly one call-index directive: zero weight directives fail with
the missing-weight diagnostic, more than one with the
too-many-weight-attributes diagnostic, and the same policy applies to
call-index directives. -/
theorem tryFrom_weight_index_cardinality :
    ∀ ispan calls? g aspan m wAttrs idxAttrs selAttr,
      checkFirstInput m.sig = Except.ok () →
      checkOutputType m.sig = Except.ok () →
      partitionAttrs g m.sig.span m.attrs ([], [], none) =
        Except.ok (wAttrs, idxAttrs, selAttr) →
      ((wAttrs = [] →
        CallDef.try_from ispan calls? g aspan (TraitItem.Method m) =
          Except.error ⟨m.sig.span, missingWeightMsg, []⟩) ∧
       (∀ a b tl, wAttrs = a :: b :: tl →
        CallDef.try_from ispan calls? g aspan (TraitItem.Method m) =
          Except.error ⟨m.sig.span, tooManyWeightMsg, []⟩) ∧
       (∀ w, wAttrs = [CallAttr.Weight w] → idxAttrs = [] →
        CallDef.try_from ispan calls? g aspan (TraitItem.Method m) =
          Except.error ⟨m.sig.span, missingIndexMsg, []⟩) ∧
       (∀ w a b tl, wAttrs = [CallAttr.Weight w] → idxAttrs = a :: b :: tl →
        CallDef.try_from ispan calls? g aspan (TraitItem.Method m) =
          Except.error ⟨m.sig.span, tooManyIndexMsg, []⟩)) := by
  intro ispan calls? g aspan m wAttrs idxAttrs selAttr h1 h2 h3
  refine ⟨?_, ?_, ?_, ?_⟩
  · intro hw
    subst hw
    rw [CallDef.try_from, h1, h2, h3]
    rfl
  · intro a b tl hw
    subst hw
    cases a <;> (rw [CallDef.try_from, h1, h2, h3]; rfl)
  · intro w hw hi
    subst hw
    subst hi
    rw [CallDef.try_from, h1, h2, h3]
    rfl
  · intro w a b tl hw hi
    subst hw
    subst hi
    cases a <;> (rw [CallDef.try_from, h1, h2, h3]; rfl)

/-- Witness for C4 at a concrete declaration with no weight directive. -/
theorem tryFrom_weight_index_cardinality_witness :
    CallDef.try_from 40 none true 41
        (TraitItem.Method (mkMethod "foo" 50 [CallAttr.Index 1] [originArg])) =
      Except.error ⟨21, missingWeightMsg, []⟩ :=
  (tryFrom_weight_index_cardinality 40 none true 41
    (mkMethod "foo" 50 [CallAttr.Index 1] [originArg]) [] [CallAttr.Index 1] none
    rfl rfl rfl).1 rfl

/-- Claim C1: a fold step of `CallDef::try_from` preserves pairwise
distinctness of call indices, succeeds only by appending an entry whose
call index differs from that of every entry already in the table, and
on a collision fails with the combined diagnostic built by
`conflictError`, which names both conflicting method identifiers and
the shared index value and references both locations; no entry is
appended in that case. -/
theorem tryFrom_call_index_uniqueness :
    (∀ ispan calls? g aspan item c',
      (∀ tbl, calls? = some tbl → IndicesDistinct tbl) →
      CallDef.try_from ispan calls? g aspan item = Except.ok c' →
      IndicesDistinct c') ∧
    (∀ ispan tbl g aspan item c',
      CallDef.try_from ispan (some tbl) g aspan item = Except.ok c' →
      ∃ entry, c'.calls = tbl.calls ++ [entry] ∧
        ∀ e ∈ tbl.calls, e.call_index ≠ entry.call_index) ∧
    (∀ ispan tbl g aspan m selAttr w idx prev,
      checkFirstInput m.sig = Except.ok () →
      checkOutputType m.sig = Except.ok () →
      partitionAttrs g m.sig.span m.attrs ([], [], none) =
        Except.ok ([CallAttr.Weight w], [CallAttr.Index idx], selAttr) →
      tbl.calls.find? (fun c => c.call_index == idx) = some prev →
      CallDef.try_from ispan (some tbl) g aspan (TraitItem.Method m) =
        Except.error (conflictError prev.name m.sig.ident idx)) := by
  refine ⟨?_, ?_, ?_⟩
  · intro ispan calls? g aspan item c' hdist h
    obtain ⟨m, wA, iA, sA, w, idx, sk, so, args, hitem, h1, h2, h3, h4, h5,
      hFind, h6, h7, hc⟩ := tryFrom_ok_inv ispan calls? g aspan item c' h
    subst hc
    unfold IndicesDistinct
    rw [List.pairwise_append]
    refine ⟨?_, List.pairwise_singleton _ _, ?_⟩
    · cases calls? with
      | none => exact List.Pairwise.nil
      | some tbl => exact hdist tbl rfl
    · intro a ha b hb
      have hb' := List.mem_singleton.mp hb
      subst hb'
      have hfa := List.find?_eq_none.mp hFind a ha
      simpa using hfa
  · intro ispan tbl g aspan item c' h
    obtain ⟨m, wA, iA, sA, w, idx, sk, so, args, hitem, h1, h2, h3, h4, h5,
      hFind, h6, h7, hc⟩ := tryFrom_ok_inv ispan (some tbl) g aspan item c' h
    subst hc
    refine ⟨_, rfl, ?_⟩
    intro e he
    have hfa := List.find?_eq_none.mp hFind e he
    simpa using hfa
  · intro ispan tbl g aspan m selAttr w idx prev h1 h2 h3 hfind
    rw [CallDef.try_from, h1, h2, h3]
    simp only [getWeight, getCallIndex, Option.getD_some, hfind]

/-- Witness for C1: a concrete successful fold keeps the indices
distinct, and a concrete colliding fold produces the combined
conflict diagnostic. -/
theorem tryFrom_call_index_uniqueness_witness :
    IndicesDistinct
      { interface_span := 40,
        calls := (sampleTable 5).calls ++
          [{ selector := none, name := ⟨"burn", 61⟩, args := [], weight := 7,
             call_index := 6, docs := [], attrs := [], attr_span := 41 }] } ∧
    CallDef.try_from 40 (some (sampleTable 5)) true 41
        (TraitItem.Method (mkMethod "approve" 60 [wAttr, CallAttr.Index 5] [originArg])) =
      Except.error (conflictError ⟨"transfer", 30⟩ ⟨"approve", 60⟩ 5) :=
  ⟨tryFrom_call_index_uniqueness.1 40 (some (sampleTable 5)) false 41
      (TraitItem.Method (mkMethod "burn" 61 [wAttr, CallAttr.Index 6] [originArg])) _
      (fun tbl h => by cases h; exact List.pairwise_singleton _ _) rfl,
   tryFrom_call_index_uniqueness.2.2 40 (sampleTable 5) true 41
      (mkMethod "approve" 60 [wAttr, CallAttr.Index 5] [originArg]) none 7 5
      { selector := none, name := ⟨"transfer", 30⟩, args := [], weight := 7,
        call_index := 5, docs := [], attrs := [], attr_span := 31 }
      rfl rfl rfl rfl⟩

/-- Claim C3: with the global selector flag off, any selector-mode
directive makes `CallDef::try_from` fail; `UseSelector` forces the
selector requirement to true and `NoSelector` to false, overriding the
flag; with the flag on and no directive the method defaults to
requiring a selector (the compiled entry carries a selector
requirement). -/
theorem tryFrom_selector_gating :
    (∀ ispan calls? aspan m,
      checkFirstInput m.sig = Except.ok () →
      checkOutputType m.sig = Except.ok () →
      (∃ a ∈ m.attrs, isSelectorMode a = true) →
      CallDef.try_from ispan calls? false aspan (TraitItem.Method m) =
        Except.error ⟨m.sig.span, selectorGatingMsg, []⟩) ∧
    (∀ n g, resolveWithSelector (some (CallAttr.UseSelector n)) g = true) ∧
    (∀ g, resolveWithSelector (some CallAttr.NoSelector) g = false) ∧
    (∀ g, resolveWithSelector none g = g) ∧
    (∀ ispan calls? aspan m c',
      (∀ a ∈ m.attrs, isSelectorMode a = false) →
      CallDef.try_from ispan calls? true aspan (TraitItem.Method m) = Except.ok c' →
      ∃ entry, c'.calls.getLast? = some entry ∧ entry.selector.isSome = true) := by
  refine ⟨?_, fun _ _ => rfl, fun _ => rfl, fun _ => rfl, ?_⟩
  · intro ispan calls? aspan m h1 h2 hex
    have hPart := partitionAttrs_gating m.sig.span m.attrs ([], [], none) hex
    rw [CallDef.try_from, h1, h2, hPart]
  · intro ispan calls? aspan m c' hnomode h
    obtain ⟨m2, wA, iA, sA, w, idx, sk, so, args, hitem, h1, h2, h3, h4, h5,
      hFind, h6, h7, hc⟩ :=
      tryFrom_ok_inv ispan calls? true aspan (TraitItem.Method m) c' h
    injection hitem with hm
    subst hm
    obtain ⟨w2, i2, hok⟩ :=
      partitionAttrs_noMode true m.sig.span m.attrs ([], [], none) hnomode
    have hsA : sA = none := by
      have hcomb := h3.symm.trans hok
      simp only [Except.ok.injEq, Prod.mk.injEq] at hcomb
      exact hcomb.2.2
    rw [hsA] at h6
    have hiso := (selectorAndSkip_true_isSome m.sig none sk so h6).2
    subst hc
    exact ⟨_, List.getLast?_concat _, hiso⟩

/-- Witness for C3: a concrete method carrying `NoSelector` under
global selector mode off is rejected with the gating diagnostic. -/
theorem tryFrom_selector_gating_witness :
    CallDef.try_from 40 none false 41
        (TraitItem.Method
          (mkMethod "pay" 70 [wAttr, CallAttr.Index 2, CallAttr.NoSelector] [originArg])) =
      Except.error ⟨21, selectorGatingMsg, []⟩ :=
  tryFrom_selector_gating.1 40 none 41
    (mkMethod "pay" 70 [wAttr, CallAttr.Index 2, CallAttr.NoSelector] [originArg])
    rfl rfl ⟨CallAttr.NoSelector, by simp [mkMethod], rfl⟩

theorem partitionStep_mode_none (sp : Span) (w i : List CallAttr) (a : CallAttr)
    (ha : isSelectorMode a = true) :
    partitionStep true sp (w, i, none) a = Except.ok (w, i, some a) := by
  cases a with
  | Index n => simp [isSelectorMode] at ha
  | Weight wt => simp [isSelectorMode] at ha
  | UseSelector n => rfl
  | NoSelector => rfl

theorem partitionAttrs_conflict (sp : Span) (pre mid post : List CallAttr)
    (a b : CallAttr) (e : SynError)
    (hpre : ∀ x ∈ pre, isSelectorMode x = false)
    (hmid : ∀ x ∈ mid, isSelectorMode x = false)
    (ha : isSelectorMode a = true)
    (hstep : ∀ w i : List CallAttr,
      partitionStep true sp (w, i, some a) b = Except.error e) :
    partitionAttrs true sp (pre ++ a :: (mid ++ b :: post)) ([], [], none) =
      Except.error e := by
  obtain ⟨w1, i1, hpre'⟩ := partitionAttrs_noMode true sp pre ([], [], none) hpre
  obtain ⟨w2, i2, hmid'⟩ := partitionAttrs_noMode true sp mid (w1, i1, some a) hmid
  rw [partitionAttrs_append_ok true sp pre _ _ _ hpre']
  simp only [partitionAttrs, partitionStep_mode_none sp w1 i1 a ha]
  rw [partitionAttrs_append_ok true sp mid _ _ _ hmid']
  simp only [partitionAttrs, hstep w2 i2]

/-- Claim C6: a method bearing both `NoSelector` and `UseSelector`
directives is rejected by `CallDef::try_from` with the
conflicting-directives diagnostic regardless of the order of the two
attributes, and a method bearing the same selector-mode directive twice
is rejected with the corresponding duplication diagnostic naming that
kind. -/
theorem tryFrom_selector_directive_conflicts :
    ∀ ispan calls? aspan m pre mid post a b,
      checkFirstInput m.sig = Except.ok () →
      checkOutputType m.sig = Except.ok () →
      (∀ x ∈ pre, isSelectorMode x = false) →
      (∀ x ∈ mid, isSelectorMode x = false) →
      m.attrs = pre ++ a :: (mid ++ b :: post) →
      (((a = CallAttr.NoSelector ∧ ∃ n, b = CallAttr.UseSelector n) ∨
        ((∃ n, a = CallAttr.UseSelector n) ∧ b = CallAttr.NoSelector)) →
        CallDef.try_from ispan calls? true aspan (TraitItem.Method m) =
          Except.error ⟨m.sig.span, bothSelectorMsg, []⟩) ∧
      ((a = CallAttr.NoSelector ∧ b = CallAttr.NoSelector) →
        CallDef.try_from ispan calls? true aspan (TraitItem.Method m) =
          Except.error ⟨m.sig.span, multiNoSelectorMsg, []⟩) ∧
      ((∃ n n2, a = CallAttr.UseSelector n ∧ b = CallAttr.UseSelector n2) →
        CallDef.try_from ispan calls? true aspan (TraitItem.Method m) =
          Except.error ⟨m.sig.span, multiUseSelectorMsg, []⟩) := by
  intro ispan calls? aspan m pre mid post a b h1 h2 hpre hmid hattrs
  refine ⟨?_, ?_, ?_⟩
  · intro hcase
    have hPart : partitionAttrs true m.sig.span m.attrs ([], [], none) =
        Except.error ⟨m.sig.span, bothSelectorMsg, []⟩ := by
      rw [hattrs]
      cases hcase with
      | inl hcl =>
        obtain ⟨han, n, hbn⟩ := hcl
        subst han
        subst hbn
        exact partitionAttrs_conflict m.sig.span pre mid post _ _ _ hpre hmid rfl
          (fun w i => rfl)
      | inr hcr =>
        obtain ⟨⟨n, han⟩, hbn⟩ := hcr
        subst han
        subst hbn
        exact partitionAttrs_conflict m.sig.span pre mid post _ _ _ hpre hmid rfl
          (fun w i => rfl)
    rw [CallDef.try_from, h1, h2, hPart]
  · intro hcase
    obtain ⟨han, hbn⟩ := hcase
    subst han
    subst hbn
    have hPart : partitionAttrs true m.sig.span m.attrs ([], [], none) =
        Except.error ⟨m.sig.span, multiNoSelectorMsg, []⟩ := by
      rw [hattrs]
      exact partitionAttrs_conflict m.sig.span pre mid post _ _ _ hpre hmid rfl
        (fun w i => rfl)
    rw [CallDef.try_from, h1, h2, hPart]
  · intro hcase
    obtain ⟨n, n2, han, hbn⟩ := hcase
    subst han
    subst hbn
    have hPart : partitionAttrs true m.sig.span m.attrs ([], [], none) =
        Except.error ⟨m.sig.span, multiUseSelectorMsg, []⟩ := by
      rw [hattrs]
      exact partitionAttrs_conflict m.sig.span pre mid post _ _ _ hpre hmid rfl
        (fun w i => rfl)
    rw [CallDef.try_from, h1, h2, hPart]

/-- Witness for C6 at a concrete method carrying `UseSelector` followed
by `NoSelector`. -/
theorem tryFrom_selector_directive_conflicts_witness :
    CallDef.try_from 40 none true 41
        (TraitItem.Method
          (mkMethod "pay" 70
            [wAttr, CallAttr.UseSelector ⟨"Restricted", 71⟩, CallAttr.Index 2,
             CallAttr.NoSelector]
            [originArg])) =
      Except.error ⟨21, bothSelectorMsg, []⟩ :=
  (tryFrom_selector_directive_conflicts 40 none 41
    (mkMethod "pay" 70
      [wAttr, CallAttr.UseSelector ⟨"Restricted", 71⟩, CallAttr.Index 2,
       CallAttr.NoSelector]
      [originArg])
    [wAttr] [CallAttr.Index 2] [] (CallAttr.UseSelector ⟨"Restricted", 71⟩)
    CallAttr.NoSelector rfl rfl
    (by intro x hx; simp only [List.mem_singleton] at hx; subst hx; rfl)
    (by intro x hx; simp only [List.mem_singleton] at hx; subst hx; rfl)
    rfl).1 (Or.inr ⟨⟨⟨"Restricted", 71⟩, rfl⟩, rfl⟩)

/-- Claim C5: when the resolved selector requirement is true,
`CallDef::try_from` requires the second input to exist, be typed and
have the one-argument wrapper shape `Select<T>`, failing with the
documented diagnostics otherwise; on success the inner type `T` becomes
the requirement's expected return type, the requirement is `Named` when
a `UseSelector` directive supplied a name and `Default` otherwise, and
the argument list is extracted skipping two leading parameters (versus
one when no selector is required). -/
theorem tryFrom_selector_second_param :
    (∀ sp ty T, check_call_second_arg_type sp ty = Except.ok T ↔
      ty = SynType.path [("Select", [T])]) ∧
    (∀ n T, selectorTyOf (some (CallAttr.UseSelector n)) T = SelectorType.Named n T) ∧
    (∀ T, selectorTyOf none T = SelectorType.Default T) ∧
    (∀ sig selAttr, selectorAndSkip sig selAttr false = Except.ok (1, none)) ∧
    (∀ ispan calls? g aspan m selAttr w idx,
      checkFirstInput m.sig = Except.ok () →
      checkOutputType m.sig = Except.ok () →
      partitionAttrs g m.sig.span m.attrs ([], [], none) =
        Except.ok ([CallAttr.Weight w], [CallAttr.Index idx], selAttr) →
      (calls?.getD ⟨ispan, []⟩).calls.find? (fun c => c.call_index == idx) = none →
      resolveWithSelector selAttr g = true →
      ((m.sig.inputs[1]? = none →
        CallDef.try_from ispan calls? g aspan (TraitItem.Method m) =
          Except.error ⟨m.sig.span, needSelectMsg, []⟩) ∧
       (m.sig.inputs[1]? = some FnArg.Receiver →
        CallDef.try_from ispan calls? g aspan (TraitItem.Method m) =
          Except.error ⟨m.sig.span, secondTypedMsg, []⟩) ∧
       (∀ arg e, m.sig.inputs[1]? = some (FnArg.Typed arg) →
        check_call_second_arg_type arg.tySpan arg.ty = Except.error e →
        CallDef.try_from ispan calls? g aspan (TraitItem.Method m) = Except.error e) ∧
       (∀ arg T args, m.sig.inputs[1]? = some (FnArg.Typed arg) →
        check_call_second_arg_type arg.tySpan arg.ty = Except.ok T →
        extractArgs (m.sig.inputs.drop 2) = Except.ok args →
        CallDef.try_from ispan calls? g aspan (TraitItem.Method m) =
          Except.ok
            { interface_span := (calls?.getD ⟨ispan, []⟩).interface_span,
              calls := (calls?.getD ⟨ispan, []⟩).calls ++
                [{ selector := some (selectorTyOf selAttr T), name := m.sig.ident,
                   args := args, weight := w, call_index := idx, docs := m.docs,
                   attrs := m.residualAttrs, attr_span := aspan }] }))) := by
  refine ⟨?_, fun _ _ => rfl, fun _ => rfl, fun _ _ => rfl, ?_⟩
  · intro sp ty T
    constructor
    · intro h
      by_cases hc : ∃ T2, ty = SynType.path [("Select", [T2])]
      · obtain ⟨T2, hT2⟩ := hc
        subst hT2
        have h2 : (Except.ok T2 : Except SynError SynType) = Except.ok T := h
        injection h2 with h3
        rw [h3]
      · rw [check_second_arg_ne sp ty (fun T2 hT2 => hc ⟨T2, hT2⟩)] at h
        exact Except.noConfusion h
    · intro h
      subst h
      rfl
  · intro ispan calls? g aspan m selAttr w idx h1 h2 h3 hfind hres
    refine ⟨?_, ?_, ?_, ?_⟩
    · intro hn
      have hSel : selectorAndSkip m.sig selAttr (resolveWithSelector selAttr g) =
          Except.error ⟨m.sig.span, needSelectMsg, []⟩ := by
        simp only [hres, selectorAndSkip, eq_self_iff_true, if_true, hn]
      rw [CallDef.try_from, h1, h2, h3]
      simp only [getWeight, getCallIndex, hfind, hSel]
    · intro hn
      have hSel : selectorAndSkip m.sig selAttr (resolveWithSelector selAttr g) =
          Except.error ⟨m.sig.span, secondTypedMsg, []⟩ := by
        simp only [hres, selectorAndSkip, eq_self_iff_true, if_true, hn]
      rw [CallDef.try_from, h1, h2, h3]
      simp only [getWeight, getCallIndex, hfind, hSel]
    · intro arg e hn hchk
      have hSel : selectorAndSkip m.sig selAttr (resolveWithSelector selAttr g) =
          Except.error e := by
        simp only [hres, selectorAndSkip, eq_self_iff_true, if_true, hn, hchk]
      rw [CallDef.try_from, h1, h2, h3]
      simp only [getWeight, getCallIndex, hfind, hSel]
    · intro arg T args hn hchk hargs
      have hSel : selectorAndSkip m.sig selAttr (resolveWithSelector selAttr g) =
          Except.ok (2, some (selectorTyOf selAttr T)) := by
        simp only [hres, selectorAndSkip, eq_self_iff_true, if_true, hn, hchk]
      rw [CallDef.try_from, h1, h2, h3]
      simp only [getWeight, getCallIndex, hfind, hSel, hargs]

/-- Witness for C5 at a concrete method whose second parameter is a
receiver while a selector is required. -/
theorem tryFrom_selector_second_param_witness :
    CallDef.try_from 40 none true 41
        (TraitItem.Method
          (mkMethod "sel" 90 [wAttr, CallAttr.Index 3] [originArg, FnArg.Receiver])) =
      Except.error ⟨21, secondTypedMsg, []⟩ :=
  ((tryFrom_selector_second_param.2.2.2.2 40 none true 41
    (mkMethod "sel" 90 [wAttr, CallAttr.Index 3] [originArg, FnArg.Receiver])
    none 7 3 rfl rfl rfl rfl rfl).2.1) rfl

theorem checkSelectorsList_some_ok_iff (d : SelectorDef) :
    (l : List SingleCallDef) →
    (checkSelectorsList l (some d) = Except.ok () ↔
      ∀ e ∈ l, ∀ s, e.selector = some s → d.check_selector s = Except.ok ())
  | [] => by
    constructor
    · intro _ e he
      exact absurd he (List.not_mem_nil e)
    · intro _
      rfl
  | call :: rest => by
    have ih := checkSelectorsList_some_ok_iff d rest
    constructor
    · intro h e he s hsel
      cases List.mem_cons.mp he with
      | inl heq =>
        subst heq
        simp only [checkSelectorsList, hsel] at h
        cases hchk : d.check_selector s with
        | error e2 =>
          rw [hchk] at h
          exact Except.noConfusion h
        | ok u => rfl
      | inr hmem =>
        cases hcs : call.selector with
        | none =>
          simp only [checkSelectorsList, hcs] at h
          exact ih.mp h e hmem s hsel
        | some s2 =>
          simp only [checkSelectorsList, hcs] at h
          cases hchk : d.check_selector s2 with
          | error e2 =>
            rw [hchk] at h
            exact Except.noConfusion h
          | ok u =>
            rw [hchk] at h
            exact ih.mp h e hmem s hsel
    · intro hall
      rw [checkSelectorsList]
      cases hcs : call.selector with
      | none => exact ih.mpr fun e he s hs => hall e (List.mem_cons_of_mem call he) s hs
      | some s =>
        have hchk := hall call (List.mem_cons_self call rest) s hcs
        simp only [hchk]
        exact ih.mpr fun e he s2 hs2 => hall e (List.mem_cons_of_mem call he) s2 hs2

theorem checkSelectorsList_none_ok_iff :
    (l : List SingleCallDef) →
    (checkSelectorsList l none = Except.ok () ↔ ∀ e ∈ l, e.selector = none)
  | [] => by
    constructor
    · intro _ e he
      exact absurd he (List.not_mem_nil e)
    · intro _
      rfl
  | call :: rest => by
    have ih := checkSelectorsList_none_ok_iff rest
    constructor
    · intro h e he
      cases hcs : call.selector with
      | none =>
        cases List.mem_cons.mp he with
        | inl heq =>
          subst heq
          exact hcs
        | inr hmem =>
          simp only [checkSelectorsList, hcs] at h
          exact ih.mp h e hmem
      | some s =>
        simp only [checkSelectorsList, hcs] at h
        exact Except.noConfusion h
    · intro hall
      rw [checkSelectorsList]
      have hcall := hall call (List.mem_cons_self call rest)
      simp only [hcall]
      exact ih.mpr fun e he => hall e (List.mem_cons_of_mem call he)

theorem checkSelectorsList_none_error (pre : List SingleCallDef) :
    ∀ (call : SingleCallDef) (post : List SingleCallDef) (s : SelectorType),
    (∀ e ∈ pre, e.selector = none) → call.selector = some s →
    checkSelectorsList (pre ++ call :: post) none =
      Except.error ⟨call.attr_span, missingSelectorMsg s, []⟩ := by
  induction pre with
  | nil =>
    intro call post s _ hsel
    rw [List.nil_append, checkSelectorsList]
    simp only [hsel]
  | cons p rest ih =>
    intro call post s hpre hsel
    rw [List.cons_append, checkSelectorsList]
    have hp := hpre p (List.mem_cons_self p rest)
    simp only [hp]
    exact ih call post s (fun e he => hpre e (List.mem_cons_of_mem p he)) hsel

/-- Claim C7: `check_selectors` fails whenever some entry has a
selector requirement and no selector table is supplied, raising the
missing-selector diagnostic (naming the requirement kind) at the first
such entry's location; with a table supplied it succeeds exactly when
every entry's requirement passes the table lookup; entries without a
requirement are skipped.  The embedded function is pure, returning only
a unit result and mutating nothing. -/
theorem check_selectors_spec :
    (∀ (c : CallDef) (d : SelectorDef),
      (CallDef.check_selectors c (some d) = Except.ok () ↔
        ∀ e ∈ c.calls, ∀ s, e.selector = some s → d.check_selector s = Except.ok ())) ∧
    (∀ c : CallDef,
      (CallDef.check_selectors c none = Except.ok () ↔ ∀ e ∈ c.calls, e.selector = none)) ∧
    (∀ (c : CallDef) pre call post s,
      c.calls = pre ++ call :: post →
      (∀ e ∈ pre, e.selector = none) →
      call.selector = some s →
      CallDef.check_selectors c none =
        Except.error ⟨call.attr_span, missingSelectorMsg s, []⟩) :=
  ⟨fun c d => checkSelectorsList_some_ok_iff d c.calls,
   fun c => checkSelectorsList_none_ok_iff c.calls,
   fun c pre call post s hc hpre hsel => by
     rw [CallDef.check_selectors, hc]
     exact checkSelectorsList_none_error pre call post s hpre hsel⟩

/-- Witness for C7 at a one-entry table requiring a default selector
with no selector table supplied. -/
theorem check_selectors_spec_witness :
    CallDef.check_selectors
        { interface_span := 40,
          calls := [{ selector := some (SelectorType.Default u32Ty),
                      name := ⟨"approve", 54⟩, args := [], weight := 7, call_index := 1,
                      docs := [], attrs := [], attr_span := 55 }] } none =
      Except.error ⟨55, missingSelectorMsg (SelectorType.Default u32Ty), []⟩ :=
  check_selectors_spec.2.2
    { interface_span := 40,
      calls := [{ selector := some (SelectorType.Default u32Ty),
                  name := ⟨"approve", 54⟩, args := [], weight := 7, call_index := 1,
                  docs := [], attrs := [], attr_span := 55 }] }
    [] _ [] (SelectorType.Default u32Ty) rfl
    (fun e he => absurd he (List.not_mem_nil e)) rfl

/-- Claim C10: whenever `CallDef::try_from` succeeds, the returned
table is exactly the input table's entries, unchanged and in order,
followed by exactly one new entry for the compiled method, and the
interface span is preserved (taken from the argument when no previous
table was supplied). -/
theorem tryFrom_appends_exactly_one :
    ∀ ispan calls? g aspan item c',
      CallDef.try_from ispan calls? g aspan item = Except.ok c' →
      ∃ m entry, item = TraitItem.Method m ∧
        c'.calls = (calls?.getD ⟨ispan, []⟩).calls ++ [entry] ∧
        entry.name = m.sig.ident ∧
        entry.docs = m.docs ∧
        entry.attrs = m.residualAttrs ∧
        entry.attr_span = aspan ∧
        c'.interface_span = (calls?.getD ⟨ispan, []⟩).interface_span ∧
        (calls? = none → c'.interface_span = ispan) ∧
        (∀ tbl, calls? = some tbl → c'.interface_span = tbl.interface_span) := by
  intro ispan calls? g aspan item c' h
  obtain ⟨m, wA, iA, sA, w, idx, sk, so, args, hitem, h1, h2, h3, h4, h5,
    hFind, h6, h7, hc⟩ := tryFrom_ok_inv ispan calls? g aspan item c' h
  subst hc
  refine ⟨m, _, hitem, rfl, rfl, rfl, rfl, rfl, rfl, ?_, ?_⟩
  · intro hnone
    subst hnone
    rfl
  · intro tbl hsome
    subst hsome
    rfl

/-- Witness for C10 at a concrete successful fold into the empty
table. -/
theorem tryFrom_appends_exactly_one_witness :
    ∃ m entry,
      TraitItem.Method (mkMethod "init" 80 [wAttr, CallAttr.Index 0] [originArg]) =
        TraitItem.Method m ∧
      (CallDef.mk 40
        [{ selector := none, name := ⟨"init", 80⟩, args := [], weight := 7,
           call_index := 0, docs := [], attrs := [], attr_span := 41 }]).calls =
        ((none : Option CallDef).getD ⟨40, []⟩).calls ++ [entry] ∧
      entry.name = m.sig.ident ∧
      entry.docs = m.docs ∧
      entry.attrs = m.residualAttrs ∧
      entry.attr_span = 41 ∧
      (CallDef.mk 40
        [{ selector := none, name := ⟨"init", 80⟩, args := [], weight := 7,
           call_index := 0, docs := [], attrs := [], attr_span := 41 }]).interface_span =
        ((none : Option CallDef).getD ⟨40, []⟩).interface_span ∧
      ((none : Option CallDef) = none →
        (CallDef.mk 40
          [{ selector := none, name := ⟨"init", 80⟩, args := [], weight := 7,
             call_index := 0, docs := [], attrs := [], attr_span := 41 }]).interface_span =
          40) ∧
      (∀ tbl, (none : Option CallDef) = some tbl →
        (CallDef.mk 40
          [{ selector := none, name := ⟨"init", 80⟩, args := [], weight := 7,
             call_index := 0, docs := [], attrs := [], attr_span := 41 }]).interface_span =
          tbl.interface_span) :=
  tryFrom_appends_exactly_one 40 none false 41
    (TraitItem.Method (mkMethod "init" 80 [wAttr, CallAttr.Index 0] [originArg]))
    (CallDef.mk 40
      [{ selector := none, name := ⟨"init", 80⟩, args := [], weight := 7,
         call_index := 0, docs := [], attrs := [], attr_span := 41 }])
    rfl
